import Mathlib

/-!
# Verification of the ToDoApp repository

Shallow embedding of the to-do CLI (src/models.py, src/storage.py,
src/cli.py) and proofs of the claims the specification makes about it.

Modelling conventions:
* The nondeterministic Python generators `uuid.uuid4()` and
  `datetime.now(...)` are passed in as explicit string parameters
  (`freshId`, `now`); the uuid supply is modelled as an injective
  stream indexed by a draw counter.
* The filesystem is a partial map from path strings to parsed file
  contents.  `json.dump`/`json.load` are lossless on the record
  mappings involved, so the content of a file is modelled directly as the
  parsed list of mappings.
* Raised exceptions are modelled with `Except` (or an explicit Bool
  flag where the post-failure filesystem state matters).
-/

/-- A Python dict that may lack some of the `TodoItem` fields, as
passed to `TodoItem.from_dict` (`cls(**data)`).  Each field is `none`
when the key is absent.  Dicts with keys outside the six field names
(which Python rejects with a TypeError) and ill-typed values are not
needed by any claim and are not represented. -/
structure PMap where
  title : Option String
  category : Option String
  done : Option Bool
  id : Option String
  created_at : Option String
  updated_at : Option String
deriving DecidableEq, Repr

/-- The `TodoItem` dataclass of src/models.py, fields in source order. -/
structure TodoItem where
  title : String
  category : String
  done : Bool
  id : String
  created_at : String
  updated_at : String
deriving DecidableEq, Repr

/-- `TodoItem.touch`: refresh `updated_at` to the current time. -/
def TodoItem.touch (now : String) (it : TodoItem) : TodoItem :=
  { it with updated_at := now }

/-- `TodoItem.to_dict`: `asdict(self)`, a dict with all six keys. -/
def TodoItem.to_dict (it : TodoItem) : PMap :=
  ⟨some it.title, some it.category, some it.done, some it.id,
   some it.created_at, some it.updated_at⟩

/-- `TodoItem.from_dict(data)` is `cls(**data)`: a missing `title`
(the only field without a default) raises a TypeError; every other
missing key is silently filled from the dataclass defaults, the
default factories being modelled by the `freshId`/`now` parameters. -/
def TodoItem.from_dict (freshId now : String) (d : PMap) : Except String TodoItem :=
  match d.title with
  | none => .error "missing 1 required positional argument: title"
  | some t =>
      .ok ⟨t, d.category.getD "General", d.done.getD false,
           d.id.getD freshId, d.created_at.getD now, d.updated_at.getD now⟩

example : TodoItem.from_dict "f" "n" (TodoItem.to_dict ⟨"a", "b", true, "c", "d", "e"⟩)
    = .ok ⟨"a", "b", true, "c", "d", "e"⟩ := rfl

/-! ## Store (src/storage.py) -/

/-- The filesystem: a partial map from path strings to file contents,
a content being the parsed JSON list of record mappings. -/
def FS : Type := String → Option (List PMap)

/-- Overwrite (or delete, with `none`) the file at path `q`. -/
def FS.set (fs : FS) (q : String) (c : Option (List PMap)) : FS :=
  fun r => if r = q then c else fs r

/-- Where a `save_items` call may fail, per the `try` block in the source:
nowhere, during `json.dump` into the temp file, or during
`os.replace`.  Failures before the temp file exists are outside the
`try` and are not modelled. -/
inductive SaveFail where
  | ok
  | duringWrite
  | duringRename
deriving DecidableEq, Repr

/-- `save_items(items, path)` of src/storage.py on filesystem `fs`,
with an injected failure point.  `tmp` is the fresh name `mkstemp`
chose (distinct from any live path, in particular from `p`);
`halfWritten` is whatever prefix of the data `json.dump` got out
before a `duringWrite` failure.  Returns the resulting filesystem and
whether the error was re-raised.  The `dir_.mkdir` call only touches
directories and is not modelled. -/
def save_items (items : List TodoItem) (p tmp : String) (fail : SaveFail)
    (halfWritten : List PMap) (fs : FS) : FS × Bool :=
  let data := items.map TodoItem.to_dict
  -- fd, tmp = tempfile.mkstemp(...): creates an empty file at tmp
  let fs1 := fs.set tmp (some [])
  match fail with
  | .ok =>
      -- json.dump(data, f, ...)
      let fs2 := fs1.set tmp (some data)
      -- os.replace(tmp, str(p))
      let fs3 := (fs2.set tmp none).set p (some data)
      (fs3, false)
  | .duringWrite =>
      -- json.dump fails partway through
      let fs2 := fs1.set tmp (some halfWritten)
      -- except: if os.path.exists(tmp): os.unlink(tmp); raise
      let fs3 := if (fs2 tmp).isSome then fs2.set tmp none else fs2
      (fs3, true)
  | .duringRename =>
      -- json.dump succeeds, os.replace fails leaving both files as-is
      let fs2 := fs1.set tmp (some data)
      let fs3 := if (fs2 tmp).isSome then fs2.set tmp none else fs2
      (fs3, true)

/-- `load_items(path)` of src/storage.py: a missing file yields `[]`;
otherwise every stored mapping goes through `TodoItem.from_dict`, the
first failure propagating (the Python list comprehension raises).
`freshId`/`now` stand for the generator draws `from_dict` would make
for absent fields (never consulted on the full mappings `save_items`
writes). -/
def load_items (freshId now : String) (fs : FS) (p : String) :
    Except String (List TodoItem) :=
  match fs p with
  | none => .ok []
  | some data => data.mapM (TodoItem.from_dict freshId now)

/-! ## Command layer (src/cli.py) -/

/-- `_find_item`: first item with the given id, if any. -/
def _find_item (items : List TodoItem) (id : String) : Option TodoItem :=
  items.find? (fun it => it.id == id)

/-- Outcome of a mutating command handler: the collection as the
handler leaves it, whether `save_items` was called, and the exit
code. -/
structure CmdResult where
  items : List TodoItem
  saved : Bool
  exit : Nat
deriving DecidableEq, Repr

/-- Replace the first item whose id matches — the effect of the Python
in-place mutation of the object `_find_item` returned. -/
def updateFirst (id : String) (f : TodoItem → TodoItem) : List TodoItem → List TodoItem
  | [] => []
  | it :: rest => if it.id = id then f it :: rest else it :: updateFirst id f rest

/-- `cmd_update` of src/cli.py.  The found item is mutated in place,
i.e. the first item whose id matches is replaced; `touch` runs only
when at least one of the three optional fields was given, and only
then is the collection saved. -/
def cmd_update (now id : String) (title category : Option String)
    (done : Option Bool) (items : List TodoItem) : CmdResult :=
  match _find_item items id with
  | none => ⟨items, false, 1⟩
  | some _ =>
      let changed := title.isSome || category.isSome || done.isSome
      if changed then
        let apply := fun (it : TodoItem) =>
          let it := match title with | some t => { it with title := t } | none => it
          let it := match category with | some c => { it with category := c } | none => it
          let it := match done with | some d => { it with done := d } | none => it
          it.touch now
        ⟨updateFirst id apply items, true, 0⟩
      else ⟨items, false, 0⟩

/-- `cmd_delete` of src/cli.py: keep the items whose id differs; if
nothing was dropped report not-found with exit 1 and no save,
otherwise save and exit 0. -/
def cmd_delete (id : String) (items : List TodoItem) : CmdResult :=
  let items2 := items.filter (fun it => it.id ≠ id)
  if items2.length = items.length then ⟨items2, false, 1⟩
  else ⟨items2, true, 0⟩

/-- The Python `s.lower()` method, character by character.  (The core
`String.toLower` is the same `Char.toLower` map but is defined by
recursion on byte positions, which blocks kernel evaluation, so the
embedding lower-cases the character list directly.) -/
def lowerChars (s : String) : List Char :=
  s.data.map Char.toLower

/-- The Python `needle in hay` test on strings, at the character-list level:
does `hay` start with `needle`? -/
def startsWithChars : List Char → List Char → Bool
  | [], _ => true
  | _ :: _, [] => false
  | a :: as, b :: bs => a == b && startsWithChars as bs

/-- The Python `needle in hay` test on strings: `needle` occurs as a
contiguous substring of `hay`. -/
def hasSubChars (needle : List Char) : List Char → Bool
  | [] => needle.isEmpty
  | b :: bs => startsWithChars needle (b :: bs) || hasSubChars needle bs

/-- Outcome of `cmd_list`: the rows handed to `_print_table`, whether
a save happened (never), and the exit code. -/
structure ListResult where
  shown : List TodoItem
  saved : Bool
  exit : Nat
deriving DecidableEq, Repr

/-- `cmd_list` of src/cli.py.  Note the truthiness tests: `if
args.category:` and `if args.search:` skip the filter when the
argument is absent OR the empty string, while `--done` is tested with
`is not None`. -/
def cmd_list (category : Option String) (done : Option Bool)
    (search : Option String) (items : List TodoItem) : ListResult :=
  let items1 := match category with
    | some c => if c = "" then items
        else items.filter (fun it => lowerChars it.category == lowerChars c)
    | none => items
  let items2 := match done with
    | some d => items1.filter (fun it => it.done == d)
    | none => items1
  let items3 := match search with
    | some s => if s = "" then items2
        else items2.filter (fun it => hasSubChars (lowerChars s) (lowerChars it.title))
    | none => items2
  ⟨items3, false, 0⟩

/-- The first statement of `cmd_list` in isolation: the category
filter behind its truthiness guard. -/
def listCategoryStage (category : Option String) (items : List TodoItem) :
    List TodoItem :=
  match category with
  | some c => if c = "" then items
      else items.filter (fun it => lowerChars it.category == lowerChars c)
  | none => items

/-- The second statement of `cmd_list` in isolation: the done filter
behind its `is not None` guard. -/
def listDoneStage (done : Option Bool) (items : List TodoItem) : List TodoItem :=
  match done with
  | some d => items.filter (fun it => it.done == d)
  | none => items

/-- The third statement of `cmd_list` in isolation: the search filter
behind its truthiness guard. -/
def listSearchStage (search : Option String) (items : List TodoItem) :
    List TodoItem :=
  match search with
  | some s => if s = "" then items
      else items.filter (fun it => hasSubChars (lowerChars s) (lowerChars it.title))
  | none => items

/-- The category clause of the filter predicate the specification
describes for `cmd_list`: a given category must match after
lowercasing; an absent one passes everything. -/
def categoryPred (category : Option String) (it : TodoItem) : Bool :=
  match category with
  | some c => lowerChars it.category == lowerChars c
  | none => true

/-- The done clause: a given done flag must match exactly. -/
def donePred (done : Option Bool) (it : TodoItem) : Bool :=
  match done with
  | some d => it.done == d
  | none => true

/-- The search clause: a given search string must occur
case-insensitively in the title. -/
def searchPred (search : Option String) (it : TodoItem) : Bool :=
  match search with
  | some s => hasSubChars (lowerChars s) (lowerChars it.title)
  | none => true

/-- The filter predicate the specification describes for `cmd_list`:
all provided filters, ANDed. -/
def matchesFilters (category : Option String) (done : Option Bool)
    (search : Option String) (it : TodoItem) : Bool :=
  categoryPred category it && donePred done it && searchPred search it

/-! ## Theorems -/

/-- C3: for every record r, `from_dict (to_dict r)` yields r
field-for-field (id, title, category, done, created_at, updated_at
all preserved), whatever the generators would have drawn. -/
theorem C3_serialize_roundtrip (freshId now : String) (r : TodoItem) :
    TodoItem.from_dict freshId now (TodoItem.to_dict r) = .ok r := rfl

/-- C4 counterexample: the claim says deserializing a mapping that
lacks the optional fields fails loudly; in fact `from_dict` on a
mapping holding only a title succeeds, silently defaulting category
to "General", done to false, and drawing a fresh id and timestamps. -/
theorem C4_counterexample :
    TodoItem.from_dict "fresh-id" "now" ⟨some "x", none, none, none, none, none⟩
      = .ok ⟨"x", "General", false, "fresh-id", "now", "now"⟩ := rfl

/-- C4 amended: for every mapping that contains a title, however many
of the optional fields (category, done, id, created_at, updated_at)
are missing, `from_dict` does not raise: it silently fills the
dataclass defaults ("General", false, and freshly generated
id/timestamps); only a missing title is an error. -/
theorem C4_missing_optionals_silently_default (freshId now t : String)
    (c i ca ua : Option String) (dn : Option Bool) :
    TodoItem.from_dict freshId now ⟨some t, c, dn, i, ca, ua⟩
      = .ok ⟨t, c.getD "General", dn.getD false, i.getD freshId,
             ca.getD now, ua.getD now⟩ := rfl

/-- C9: loading a path that does not exist returns the empty
collection rather than raising. -/
theorem C9_load_missing_file (freshId now : String) (fs : FS) (p : String)
    (h : fs p = none) : load_items freshId now fs p = .ok [] := by
  simp [load_items, h]

/-- Witness for C9 on the empty filesystem. -/
theorem C9_load_missing_file_witness :
    (fun _ => none : FS) "todo_data.json" = none
    ∧ load_items "f" "n" (fun _ => none) "todo_data.json" = .ok [] :=
  ⟨rfl, C9_load_missing_file "f" "n" (fun _ => none) "todo_data.json" rfl⟩

/-- C1: if `save_items` fails at any step after the temp file is
created, the error is re-raised, the temp file is gone, and the
content at the target path is exactly what it was before the call. -/
theorem C1_failed_save_atomic (items : List TodoItem) (p tmp : String)
    (fail : SaveFail) (halfWritten : List PMap) (fs : FS)
    (hfail : fail ≠ .ok) (hne : tmp ≠ p) :
    (save_items items p tmp fail halfWritten fs).2 = true
    ∧ (save_items items p tmp fail halfWritten fs).1 tmp = none
    ∧ (save_items items p tmp fail halfWritten fs).1 p = fs p := by
  have hne' : p ≠ tmp := fun h => hne h.symm
  cases fail with
  | ok => exact absurd rfl hfail
  | duringWrite => refine ⟨rfl, ?_, ?_⟩ <;> simp [save_items, FS.set, hne']
  | duringRename => refine ⟨rfl, ?_, ?_⟩ <;> simp [save_items, FS.set, hne']

/-- Witness for C1: a failing write on a one-file filesystem. -/
theorem C1_failed_save_atomic_witness :
    (SaveFail.duringWrite ≠ SaveFail.ok) ∧ ("x.tmp" ≠ "db.json")
    ∧ ((save_items [] "db.json" "x.tmp" .duringWrite []
          (fun q => if q = "db.json" then some [] else none)).2 = true
    ∧ (save_items [] "db.json" "x.tmp" .duringWrite []
          (fun q => if q = "db.json" then some [] else none)).1 "x.tmp" = none
    ∧ (save_items [] "db.json" "x.tmp" .duringWrite []
          (fun q => if q = "db.json" then some [] else none)).1 "db.json"
        = (fun q => if q = "db.json" then some [] else none : FS) "db.json") :=
  ⟨by decide, by decide,
   (C1_failed_save_atomic [] "db.json" "x.tmp" .duringWrite []
      (fun q => if q = "db.json" then some [] else none) (by decide) (by decide)).imp
     id (fun h => h)⟩

/-- Serialized collections deserialize back to themselves, element by
element and in order. -/
theorem mapM_from_dict_to_dict (freshId now : String) (l : List TodoItem) :
    (l.map TodoItem.to_dict).mapM (TodoItem.from_dict freshId now) = Except.ok l := by
  induction l with
  | nil => rfl
  | cons it rest ih =>
      simp only [List.map_cons, List.mapM_cons, ih]
      rfl

/-- C2: a successful `save_items` followed by `load_items` on the
same path returns the saved collection field-for-field, in order. -/
theorem C2_save_then_load (freshId now : String) (items : List TodoItem)
    (p tmp : String) (fs : FS) :
    (save_items items p tmp .ok [] fs).2 = false
    ∧ load_items freshId now (save_items items p tmp .ok [] fs).1 p = .ok items := by
  refine ⟨rfl, ?_⟩
  have hp : (save_items items p tmp .ok [] fs).1 p
      = some (items.map TodoItem.to_dict) := by
    simp [save_items, FS.set]
  unfold load_items
  rw [hp]
  exact mapM_from_dict_to_dict freshId now items

/-- C7: `update` and `delete` on an id absent from the collection
leave the collection unchanged, call no save, and exit with code 1. -/
theorem C7_not_found_unchanged (now id : String) (title category : Option String)
    (done : Option Bool) (items : List TodoItem)
    (h : ∀ it ∈ items, it.id ≠ id) :
    cmd_update now id title category done items = ⟨items, false, 1⟩
    ∧ cmd_delete id items = ⟨items, false, 1⟩ := by
  have hfind : _find_item items id = none :=
    List.find?_eq_none.2 (fun x hx => by simpa using h x hx)
  have hfilter : items.filter (fun it => it.id ≠ id) = items :=
    List.filter_eq_self.2 (fun a ha => by simpa using h a ha)
  constructor
  · unfold cmd_update
    rw [hfind]
  · unfold cmd_delete
    rw [hfilter]
    simp

/-- Witness for C7 on a one-item collection and a foreign id. -/
theorem C7_not_found_unchanged_witness :
    (∀ it ∈ [(⟨"buy milk", "General", false, "id-1", "t1", "t1"⟩ : TodoItem)],
        it.id ≠ "id-2")
    ∧ (cmd_update "t2" "id-2" (some "new") none none
          [⟨"buy milk", "General", false, "id-1", "t1", "t1"⟩]
        = ⟨[⟨"buy milk", "General", false, "id-1", "t1", "t1"⟩], false, 1⟩
    ∧ cmd_delete "id-2" [⟨"buy milk", "General", false, "id-1", "t1", "t1"⟩]
        = ⟨[⟨"buy milk", "General", false, "id-1", "t1", "t1"⟩], false, 1⟩) :=
  ⟨by decide,
   C7_not_found_unchanged "t2" "id-2" (some "new") none none
     [⟨"buy milk", "General", false, "id-1", "t1", "t1"⟩] (by decide)⟩

/-- C8: `update` on a present id with no field arguments leaves every
record unchanged (in particular `updated_at`), performs no save, and
exits 0. -/
theorem C8_noop_update (now id : String) (items : List TodoItem)
    (h : ∃ it ∈ items, it.id = id) :
    cmd_update now id none none none items = ⟨items, false, 0⟩ := by
  obtain ⟨x, hx, hid⟩ := h
  have hsome : (_find_item items id).isSome :=
    List.find?_isSome.2 ⟨x, hx, by simp [hid]⟩
  unfold cmd_update
  cases hf : _find_item items id with
  | none => rw [hf] at hsome; simp at hsome
  | some y => simp

/-- Witness for C8 on a one-item collection. -/
theorem C8_noop_update_witness :
    (∃ it ∈ [(⟨"buy milk", "General", false, "id-1", "t1", "t1"⟩ : TodoItem)],
        it.id = "id-1")
    ∧ cmd_update "t2" "id-1" none none none
          [⟨"buy milk", "General", false, "id-1", "t1", "t1"⟩]
        = ⟨[⟨"buy milk", "General", false, "id-1", "t1", "t1"⟩], false, 0⟩ :=
  ⟨by decide,
   C8_noop_update "t2" "id-1"
     [⟨"buy milk", "General", false, "id-1", "t1", "t1"⟩] (by decide)⟩

/-- C10: `delete` drops exactly the records whose id equals the given
one, keeping the rest in order and untouched, and saves exactly when
something was dropped. -/
theorem C10_delete_semantics (id : String) (items : List TodoItem) :
    (cmd_delete id items).items = items.filter (fun it => it.id ≠ id)
    ∧ ((cmd_delete id items).saved = true ↔ ∃ it ∈ items, it.id = id) := by
  have hd : cmd_delete id items
      = if (items.filter (fun it => it.id ≠ id)).length = items.length
        then ⟨items.filter (fun it => it.id ≠ id), false, 1⟩
        else ⟨items.filter (fun it => it.id ≠ id), true, 0⟩ := rfl
  by_cases hlen : (items.filter (fun it => it.id ≠ id)).length = items.length
  · have heq : items.filter (fun it => it.id ≠ id) = items :=
      (List.filter_sublist items).eq_of_length hlen
    have hall := List.filter_eq_self.1 heq
    rw [hd, if_pos hlen]
    refine ⟨rfl, ?_⟩
    constructor
    · intro hfalse; exact absurd hfalse Bool.false_ne_true
    · rintro ⟨x, hx, hid⟩
      have hx2 := hall x hx
      simp [hid] at hx2
  · rw [hd, if_neg hlen]
    refine ⟨rfl, ?_⟩
    constructor
    · intro _
      by_contra hno
      push_neg at hno
      exact hlen (congrArg List.length
        (List.filter_eq_self.2 (fun a ha => by simpa using hno a ha)))
    · intro _; rfl

/-- C6 counterexample: the claim promises that for EVERY category
string given, `list` returns exactly the records whose category
matches it case-insensitively.  With the empty category string given,
the truthiness test `if args.category:` in the source skips the filter
entirely: a record whose category is "Work" is returned even though
it does not match the given "" (the matching subset is empty). -/
theorem C6_empty_category_counterexample :
    (cmd_list (some "") none none
        [⟨"Work task", "Work", false, "id1", "t", "t"⟩]).shown
      = [⟨"Work task", "Work", false, "id1", "t", "t"⟩]
    ∧ List.filter (fun it => matchesFilters (some "") none none it)
        [⟨"Work task", "Work", false, "id1", "t", "t"⟩] = [] := by
  constructor
  · rfl
  · decide


/-- The empty needle occurs in every haystack, as the Python `"" in s`
test is true for every s. -/
theorem hasSubChars_nil (hay : List Char) : hasSubChars [] hay = true := by
  cases hay <;> rfl

/-- `cmd_list` is the composition of its three filter statements. -/
theorem cmd_list_stages (category : Option String) (done : Option Bool)
    (search : Option String) (items : List TodoItem) :
    cmd_list category done search items
      = ⟨listSearchStage search (listDoneStage done (listCategoryStage category items)),
         false, 0⟩ := rfl

/-- Behind its truthiness guard, the category statement filters by the
category clause — provided the given string is non-empty. -/
theorem listCategoryStage_filter (category : Option String) (l : List TodoItem)
    (hc : category ≠ some "") :
    listCategoryStage category l = l.filter (fun it => categoryPred category it) := by
  rcases category with _ | c
  · simp [listCategoryStage, categoryPred]
  · have hc' : c ≠ "" := fun h => hc (by rw [h])
    simp [listCategoryStage, categoryPred, hc']

/-- The done statement filters by the done clause, unconditionally. -/
theorem listDoneStage_filter (done : Option Bool) (l : List TodoItem) :
    listDoneStage done l = l.filter (fun it => donePred done it) := by
  rcases done with _ | d <;> simp [listDoneStage, donePred]

/-- The search statement filters by the search clause, with NO
proviso: although the truthiness guard skips the filter for the empty
search string, the empty string occurs in every title, so skipping
equals filtering. -/
theorem listSearchStage_filter (search : Option String) (l : List TodoItem) :
    listSearchStage search l = l.filter (fun it => searchPred search it) := by
  rcases search with _ | s
  · simp [listSearchStage, searchPred]
  · by_cases hs : s = ""
    · subst hs
      have h0 : lowerChars "" = ([] : List Char) := rfl
      simp [listSearchStage, searchPred, h0, hasSubChars_nil]
    · simp [listSearchStage, searchPred, hs]

/-- C6 amended: provided the given category string is non-empty (an
empty one is silently treated as "no filter" by the truthiness test
in the source), `list` returns exactly the records satisfying all
provided filters intersected — category equal after lowercasing, done
equal, search a case-insensitive substring of the title (here an
empty search string changes nothing, since the empty string occurs in
every title) — never mutates or saves the collection, and exits 0. -/
theorem C6_list_filter_exact (category : Option String) (done : Option Bool)
    (search : Option String) (items : List TodoItem)
    (hc : category ≠ some "") :
    cmd_list category done search items
      = ⟨items.filter (fun it => matchesFilters category done search it),
         false, 0⟩ := by
  rw [cmd_list_stages, listCategoryStage_filter category items hc,
      listDoneStage_filter, listSearchStage_filter,
      List.filter_filter, List.filter_filter]
  simp only [ListResult.mk.injEq, and_true, true_and]
  refine List.filter_congr (fun it _ => ?_)
  simp only [matchesFilters]
  cases hA : categoryPred category it <;> cases hB : donePred done it <;>
    cases hC : searchPred search it <;> simp [hA, hB, hC]

/-- Witness for C6 with every filter given, the search one empty. -/
theorem C6_list_filter_exact_witness :
    ((some "work" : Option String) ≠ some "")
    ∧ cmd_list (some "work") (some true) (some "")
        [⟨"Buy milk", "Work", true, "id1", "t", "t"⟩]
      = ⟨[(⟨"Buy milk", "Work", true, "id1", "t", "t"⟩ : TodoItem)].filter
            (fun it => matchesFilters (some "work") (some true) (some "") it),
         false, 0⟩ :=
  ⟨by decide,
   C6_list_filter_exact (some "work") (some true) (some "")
     [⟨"Buy milk", "Work", true, "id1", "t", "t"⟩] (by decide)⟩
